import Mathlib

/-
  Verification development for the two-factor challenge manager of the
  2fa-app backend (src/backend/app/services/twofa_service.py).

  The Redis store is embedded as four finite maps (functions with Option
  values); each stored entry carries its absolute expiry time in seconds.
  Time is an explicit Nat parameter `now`; a GET returns the value only
  while `now` is strictly before the expiry, mirroring Redis TTL expiry.
  The random 6-digit code and the success of the outbound email are
  parameters of the issuance function, since they come from external
  collaborators (secrets.randbelow, FastMail).
-/

/-- The JSON entry stored at key 2fa:code:<userId>: the 6-digit code and
the timestamp of the last send (datetime.utcnow().isoformat()). -/
structure ChallengeEntry where
  code : String
  last_sent : Nat
deriving DecidableEq, Repr

/-- The Redis state relevant to the service, one map per key namespace:
2fa:code:<uid>, 2fa:attempts:<uid>, 2fa:block:user:<uid>, 2fa:block:ip:<ip>.
Each live entry carries its absolute expiry time; the attempts counter's
expiry is optional because INCR creates the key without a TTL. -/
structure Store where
  codeKey : Nat → Option (ChallengeEntry × Nat)
  attemptKey : Nat → Option (Nat × Option Nat)
  blockUserKey : Nat → Option (Nat × Nat)
  blockIpKey : String → Option (Nat × Nat)

def emptyStore : Store :=
  { codeKey := fun _ => none
    attemptKey := fun _ => none
    blockUserKey := fun _ => none
    blockIpKey := fun _ => none }

/-- Redis GET of a TTL-carrying entry: the value is visible while `now` is
before the expiry. -/
def liveVal {α : Type} (now : Nat) : Option (α × Nat) → Option α
  | some (v, e) => if now < e then some v else none
  | none => none

/-- Redis GET of the attempts counter, whose TTL may be absent (a bare INCR
creates the key persistent until EXPIRE is applied). -/
def liveCounter (now : Nat) : Option (Nat × Option Nat) → Option Nat
  | some (v, some e) => if now < e then some v else none
  | some (v, none) => some v
  | none => none

/-- The subset of Settings the service reads (config.py defaults:
TTL 180 s, resend cooldown 60 s, max attempts 5). -/
structure Settings where
  TWO_FA_CODE_TTL_SECONDS : Nat := 180
  TWO_FA_RESEND_SECONDS : Nat := 60
  TWO_FA_MAX_ATTEMPTS : Nat := 5
deriving Repr

def defaultSettings : Settings := {}

/-- The hardcoded progressive block duration table of _increase_block,
in minutes. -/
def blockTimes : List Nat := [30, 60, 480, 1440]

/-- _is_blocked: GET both block keys; Python truthiness of the returned
strings (always nonempty decimal digits when present) is presence. -/
def _is_blocked (st : Store) (now : Nat) (uid : Nat) (ip : String) : Bool :=
  (liveVal now (st.blockUserKey uid)).isSome || (liveVal now (st.blockIpKey ip)).isSome

/-- _increase_block: read the user-keyed block value (0 if absent/expired),
clamp to the last index of the table, and SET both the user-keyed and the
IP-keyed records to level+1 with TTL = times[level] minutes. -/
def _increase_block (st : Store) (now : Nat) (uid : Nat) (ip : String) : Store :=
  let current := liveVal now (st.blockUserKey uid)
  let level0 := current.getD 0
  let level := min level0 (blockTimes.length - 1)
  let block_minutes := blockTimes.getD level 0
  { st with
    blockUserKey := fun u =>
      if u = uid then some (level + 1, now + block_minutes * 60) else st.blockUserKey u
    blockIpKey := fun i =>
      if i = ip then some (level + 1, now + block_minutes * 60) else st.blockIpKey i }

/-- Outcome of send_2fa_code_via_email. resendTooSoon carries the HTTP
status and detail of the raised HTTPException; deliveryError means the
awaited fm.send_message raised after the challenge was already stored
(the exception propagates, the function does not return True). -/
inductive IssueOutcome where
  | resendTooSoon (statusCode : Nat) (detail : String)
  | deliveryError
  | success
deriving DecidableEq, Repr

/-- Result of one issuance call: the outcome, the store afterwards, and
the code handed to the mail collaborator (none when no message was
successfully dispatched). -/
structure IssueResult where
  outcome : IssueOutcome
  store : Store
  emailed : Option String

/-- The tail of send_2fa_code_via_email past the cooldown check: store the
fresh entry with TTL = TWO_FA_CODE_TTL_SECONDS, then await the email send;
a send failure raises after the store write. -/
def storeAndSend (st : Store) (now uid : Nat) (code : String) (deliveryOk : Bool)
    (cfg : Settings) : IssueResult :=
  let st1 : Store :=
    { st with codeKey := fun u =>
        if u = uid then some ({ code := code, last_sent := now }, now + cfg.TWO_FA_CODE_TTL_SECONDS)
        else st.codeKey u }
  if deliveryOk then
    { outcome := .success, store := st1, emailed := some code }
  else
    { outcome := .deliveryError, store := st1, emailed := none }

/-- send_2fa_code_via_email: GET the existing entry; if present and the
cooldown has not elapsed, raise HTTPException(429) with a fixed detail
message; otherwise store a fresh code and dispatch it.  `code` stands for
_generate_code()'s random draw, `deliveryOk` for the email collaborator. -/
def send_2fa_code_via_email (st : Store) (now uid : Nat) (code : String)
    (deliveryOk : Bool) (cfg : Settings) : IssueResult :=
  match liveVal now (st.codeKey uid) with
  | some payload =>
      if now - payload.last_sent < cfg.TWO_FA_RESEND_SECONDS then
        { outcome := .resendTooSoon 429 ("Please wait before requesting another code.")
          store := st, emailed := none }
      else storeAndSend st now uid code deliveryOk cfg
  | none => storeAndSend st now uid code deliveryOk cfg

/-- Outcome of verify_code, one constructor per exit point. -/
inductive VerifyOutcome where
  | lockedOut
  | codeExpired
  | invalidCode
  | success
deriving DecidableEq, Repr

/-- verify_code: block check first; then GET the stored entry; on mismatch
INCR the attempt counter, EXPIRE it to the full code TTL, escalate the
block when the count reaches TWO_FA_MAX_ATTEMPTS, and fail; on match
DELETE the attempt counter and the code entry and return success. -/
def verify_code (st : Store) (now uid : Nat) (code ip : String) (cfg : Settings) :
    VerifyOutcome × Store :=
  if _is_blocked st now uid ip then (.lockedOut, st)
  else
    match liveVal now (st.codeKey uid) with
    | none => (.codeExpired, st)
    | some payload =>
        if payload.code ≠ code then
          let attempts := (liveCounter now (st.attemptKey uid)).getD 0 + 1
          let st1 : Store :=
            { st with attemptKey := fun u =>
                if u = uid then some (attempts, some (now + cfg.TWO_FA_CODE_TTL_SECONDS))
                else st.attemptKey u }
          let st2 :=
            if cfg.TWO_FA_MAX_ATTEMPTS ≤ attempts then _increase_block st1 now uid ip else st1
          (.invalidCode, st2)
        else
          (.success,
            { st with
              attemptKey := fun u => if u = uid then none else st.attemptKey u
              codeKey := fun u => if u = uid then none else st.codeKey u })

example :
    (verify_code emptyStore 0 7 ("123456") ("1.2.3.4") defaultSettings).1 =
      VerifyOutcome.codeExpired := by decide

example :
    ((_increase_block emptyStore 0 7 ("1.2.3.4")).blockUserKey 7) = some (1, 1800) := by
  decide

/-- The fixed HTTPException detail raised by the resend cooldown check. -/
def resendDetail : String := "Please wait before requesting another code."

/-- The cooldown guard of send_2fa_code_via_email, as a Boolean: true when
no live entry exists or the cooldown has elapsed. -/
def cooldownPassed (st : Store) (now uid : Nat) (cfg : Settings) : Bool :=
  match liveVal now (st.codeKey uid) with
  | some payload => decide (cfg.TWO_FA_RESEND_SECONDS ≤ now - payload.last_sent)
  | none => true

/-- Claim C7: when the user or the source IP has a live LockoutRecord,
verify_code fails with LockedOut immediately, and the returned store is the
input store itself: the Challenge, AttemptCounter and both LockoutRecords
are untouched, and the Challenge was never consulted (the result does not
depend on it). -/
theorem verify_locked_frame (st : Store) (now uid : Nat) (code ip : String)
    (cfg : Settings) (h : _is_blocked st now uid ip = true) :
    verify_code st now uid code ip cfg = (.lockedOut, st) := by
  simp [verify_code, h]

def stBlocked : Store :=
  { emptyStore with blockUserKey := fun u => if u = 7 then some (1, 100) else none }

theorem verify_locked_frame_witness :
    _is_blocked stBlocked 5 7 ("8.8.8.8") = true ∧
    verify_code stBlocked 5 7 ("123456") ("8.8.8.8") defaultSettings =
      (VerifyOutcome.lockedOut, stBlocked) :=
  ⟨by decide, verify_locked_frame stBlocked 5 7 ("123456") ("8.8.8.8") defaultSettings
    (by decide)⟩

/-- Claim C9: when the resend cooldown rejects the call, the whole store is
returned unchanged (same code, same last_sent, same expiry) and nothing is
handed to the mail collaborator. -/
theorem issue_cooldown_frame (st : Store) (now uid : Nat) (code : String)
    (deliveryOk : Bool) (cfg : Settings) (payload : ChallengeEntry)
    (hc : liveVal now (st.codeKey uid) = some payload)
    (hcool : now - payload.last_sent < cfg.TWO_FA_RESEND_SECONDS) :
    send_2fa_code_via_email st now uid code deliveryOk cfg =
      { outcome := .resendTooSoon 429 resendDetail, store := st, emailed := none } := by
  simp [send_2fa_code_via_email, hc, hcool, resendDetail]

def stCool : Store :=
  { emptyStore with codeKey := fun u =>
      if u = 7 then some ({ code := "111111", last_sent := 0 }, 180) else none }

theorem issue_cooldown_frame_witness :
    liveVal 10 (stCool.codeKey 7) = some { code := "111111", last_sent := 0 } ∧
    send_2fa_code_via_email stCool 10 7 ("222222") true defaultSettings =
      { outcome := .resendTooSoon 429 resendDetail, store := stCool, emailed := none } :=
  ⟨by decide, issue_cooldown_frame stCool 10 7 ("222222") true defaultSettings
    { code := "111111", last_sent := 0 } (by decide) (by decide)⟩

/-- Claim C6, counterexample: two rejected resends whose remaining wait
times differ (50 s versus 5 s) return byte-for-byte identical failures, so
the ResendTooSoon failure does not include the remaining wait time. -/
theorem issue_cooldown_no_retry_after :
    (send_2fa_code_via_email stCool 10 7 ("222222") true defaultSettings).outcome =
      (send_2fa_code_via_email stCool 55 7 ("222222") true defaultSettings).outcome ∧
    defaultSettings.TWO_FA_RESEND_SECONDS - (10 - 0) ≠
      defaultSettings.TWO_FA_RESEND_SECONDS - (55 - 0) := by
  decide

/-- Claim C6 as amended: a resend inside the cooldown window fails with
ResendTooSoon as HTTP 429 whose detail is the fixed string resendDetail,
independent of how long the caller still has to wait. -/
theorem issue_cooldown_fixed_detail (st : Store) (now uid : Nat) (code : String)
    (deliveryOk : Bool) (cfg : Settings) (payload : ChallengeEntry)
    (hc : liveVal now (st.codeKey uid) = some payload)
    (hcool : now - payload.last_sent < cfg.TWO_FA_RESEND_SECONDS) :
    (send_2fa_code_via_email st now uid code deliveryOk cfg).outcome =
      .resendTooSoon 429 resendDetail := by
  simp [send_2fa_code_via_email, hc, hcool, resendDetail]

theorem issue_cooldown_fixed_detail_witness :
    (10 : Nat) - 0 < defaultSettings.TWO_FA_RESEND_SECONDS ∧
    (send_2fa_code_via_email stCool 10 7 ("333333") true defaultSettings).outcome =
      IssueOutcome.resendTooSoon 429 resendDetail :=
  ⟨by decide, issue_cooldown_fixed_detail stCool 10 7 ("333333") true defaultSettings
    { code := "111111", last_sent := 0 } (by decide) (by decide)⟩

def stNearExpiry : Store :=
  { emptyStore with codeKey := fun u =>
      if u = 7 then some ({ code := "222222", last_sent := 0 }, 50) else none }

/-- Claim C5, counterexample: at time 10 the challenge of user 7 has 40
seconds of TTL left (absolute expiry 50), yet the freshly created attempt
counter is written with expiry 190 = now + TWO_FA_CODE_TTL_SECONDS, the
full code TTL, not the remaining challenge TTL. -/
theorem attempt_ttl_not_remaining :
    stNearExpiry.codeKey 7 = some ({ code := "222222", last_sent := 0 }, 50) ∧
    ((verify_code stNearExpiry 10 7 ("000000") ("1.2.3.4") defaultSettings).2).attemptKey 7 =
      some (1, some 190) ∧
    (190 : Nat) ≠ 50 := by
  decide

/-- Claim C5 as amended: on a wrong code, verify_code increments the
attempt counter (created at 1 when absent or expired) and sets its TTL to
the full TWO_FA_CODE_TTL_SECONDS, refreshed on every wrong attempt, before
failing with InvalidCode. -/
theorem attempt_incr_full_ttl (st : Store) (now uid : Nat) (w ip : String)
    (cfg : Settings) (payload : ChallengeEntry)
    (hb : _is_blocked st now uid ip = false)
    (hc : liveVal now (st.codeKey uid) = some payload)
    (hw : payload.code ≠ w) :
    (verify_code st now uid w ip cfg).1 = .invalidCode ∧
    ((verify_code st now uid w ip cfg).2).attemptKey uid =
      some ((liveCounter now (st.attemptKey uid)).getD 0 + 1,
        some (now + cfg.TWO_FA_CODE_TTL_SECONDS)) := by
  by_cases hmax :
      cfg.TWO_FA_MAX_ATTEMPTS ≤ (liveCounter now (st.attemptKey uid)).getD 0 + 1 <;>
    simp [verify_code, hb, hc, hw, hmax, _increase_block]

theorem attempt_incr_full_ttl_witness :
    _is_blocked stNearExpiry 10 7 ("1.2.3.4") = false ∧
    (verify_code stNearExpiry 10 7 ("000000") ("1.2.3.4") defaultSettings).1 =
      VerifyOutcome.invalidCode ∧
    ((verify_code stNearExpiry 10 7 ("000000") ("1.2.3.4") defaultSettings).2).attemptKey 7 =
      some ((liveCounter 10 (stNearExpiry.attemptKey 7)).getD 0 + 1,
        some (10 + defaultSettings.TWO_FA_CODE_TTL_SECONDS)) :=
  ⟨by decide,
    attempt_incr_full_ttl stNearExpiry 10 7 ("000000") ("1.2.3.4") defaultSettings
      { code := "222222", last_sent := 0 } (by decide) (by decide) (by decide)⟩

/-- Claim C8, counterexample: when the awaited email send fails, the call
does not succeed (the exception propagates instead of a non-fatal
DeliveryFailed report), even though the stored Challenge is indeed kept. -/
theorem delivery_failure_not_nonfatal :
    (send_2fa_code_via_email emptyStore 0 7 ("123456") false defaultSettings).outcome =
      IssueOutcome.deliveryError ∧
    IssueOutcome.deliveryError ≠ IssueOutcome.success ∧
    ((send_2fa_code_via_email emptyStore 0 7 ("123456") false defaultSettings).store).codeKey 7 =
      some ({ code := "123456", last_sent := 0 }, 180) := by
  decide

/-- Claim C8 as amended: when delivery fails after the Challenge is
stored, the stored Challenge is not rolled back (it sits under the user
key with the full TTL), but issuance does not succeed: the delivery
exception propagates and no message reaches the mail collaborator. -/
theorem delivery_failure_keeps_challenge (st : Store) (now uid : Nat) (code : String)
    (cfg : Settings) (hcool : cooldownPassed st now uid cfg = true) :
    (send_2fa_code_via_email st now uid code false cfg).outcome = .deliveryError ∧
    ((send_2fa_code_via_email st now uid code false cfg).store).codeKey uid =
      some ({ code := code, last_sent := now }, now + cfg.TWO_FA_CODE_TTL_SECONDS) ∧
    (send_2fa_code_via_email st now uid code false cfg).emailed = none := by
  unfold cooldownPassed at hcool
  unfold send_2fa_code_via_email
  cases hl : liveVal now (st.codeKey uid) with
  | none => simp [storeAndSend]
  | some payload =>
      rw [hl] at hcool
      simp only [decide_eq_true_eq] at hcool
      simp [storeAndSend, Nat.not_lt_of_le hcool]

theorem delivery_failure_keeps_challenge_witness :
    cooldownPassed emptyStore 0 7 defaultSettings = true ∧
    (send_2fa_code_via_email emptyStore 0 7 ("123456") false defaultSettings).outcome =
      IssueOutcome.deliveryError ∧
    ((send_2fa_code_via_email emptyStore 0 7 ("123456") false defaultSettings).store).codeKey 7 =
      some ({ code := "123456", last_sent := 0 }, 0 + defaultSettings.TWO_FA_CODE_TTL_SECONDS) ∧
    (send_2fa_code_via_email emptyStore 0 7 ("123456") false defaultSettings).emailed = none :=
  ⟨by decide, delivery_failure_keeps_challenge emptyStore 0 7 ("123456") defaultSettings
    (by decide)⟩

def stLockedUser : Store :=
  { emptyStore with blockUserKey := fun u => if u = 7 then some (2, 1000000) else none }

/-- Claim C4, counterexample: user 7 has a live user-keyed LockoutRecord
at time 5, yet issuance succeeds: a code is generated, the Challenge is
stored, and the code is dispatched to the mail collaborator. -/
theorem issue_ignores_lockout_ce :
    (liveVal 5 (stLockedUser.blockUserKey 7)).isSome = true ∧
    (send_2fa_code_via_email stLockedUser 5 7 ("654321") true defaultSettings).outcome =
      IssueOutcome.success ∧
    ((send_2fa_code_via_email stLockedUser 5 7 ("654321") true defaultSettings).store).codeKey 7 =
      some ({ code := "654321", last_sent := 5 }, 185) ∧
    (send_2fa_code_via_email stLockedUser 5 7 ("654321") true defaultSettings).emailed =
      some ("654321") := by
  decide

/-- Claim C4 as amended: send_2fa_code_via_email performs no lockout check
at all: its outcome, dispatched email, stored Challenge and attempt
counters are identical whatever LockoutRecords exist (user- or IP-keyed),
and it never writes a LockoutRecord; lockout is enforced only at
verification time. -/
theorem issue_ignores_lockout (st : Store) (now uid : Nat) (code : String)
    (deliveryOk : Bool) (cfg : Settings)
    (bu : Nat → Option (Nat × Nat)) (bi : String → Option (Nat × Nat)) :
    (send_2fa_code_via_email { st with blockUserKey := bu, blockIpKey := bi }
        now uid code deliveryOk cfg).outcome =
      (send_2fa_code_via_email st now uid code deliveryOk cfg).outcome ∧
    (send_2fa_code_via_email { st with blockUserKey := bu, blockIpKey := bi }
        now uid code deliveryOk cfg).emailed =
      (send_2fa_code_via_email st now uid code deliveryOk cfg).emailed ∧
    ((send_2fa_code_via_email { st with blockUserKey := bu, blockIpKey := bi }
        now uid code deliveryOk cfg).store).codeKey =
      ((send_2fa_code_via_email st now uid code deliveryOk cfg).store).codeKey ∧
    ((send_2fa_code_via_email { st with blockUserKey := bu, blockIpKey := bi }
        now uid code deliveryOk cfg).store).attemptKey = st.attemptKey ∧
    ((send_2fa_code_via_email { st with blockUserKey := bu, blockIpKey := bi }
        now uid code deliveryOk cfg).store).blockUserKey = bu ∧
    ((send_2fa_code_via_email { st with blockUserKey := bu, blockIpKey := bi }
        now uid code deliveryOk cfg).store).blockIpKey = bi := by
  unfold send_2fa_code_via_email
  cases hl : liveVal now (st.codeKey uid) with
  | none => cases deliveryOk <;> simp [storeAndSend]
  | some payload =>
      by_cases hcool : now - payload.last_sent < cfg.TWO_FA_RESEND_SECONDS <;>
        cases deliveryOk <;> simp [storeAndSend, hl, hcool]

/-- Claim C3: with no live lockout and a live Challenge, submitting the
stored code deletes both the attempt counter and the Challenge for the
user, leaves every other key (including both lockout maps) unchanged, and
returns success; a second verification with the same code (at any later
time at which the user is still not locked out) fails with CodeExpired,
so the correct code succeeds exactly once. -/
theorem verify_success_once (st : Store) (now now2 uid : Nat) (c ip : String)
    (cfg : Settings) (payload : ChallengeEntry)
    (hb : _is_blocked st now uid ip = false)
    (hc : liveVal now (st.codeKey uid) = some payload)
    (hcode : payload.code = c)
    (hb2 : _is_blocked st now2 uid ip = false) :
    (verify_code st now uid c ip cfg).1 = .success ∧
    ((verify_code st now uid c ip cfg).2).codeKey uid = none ∧
    ((verify_code st now uid c ip cfg).2).attemptKey uid = none ∧
    (∀ u, u ≠ uid → ((verify_code st now uid c ip cfg).2).codeKey u = st.codeKey u) ∧
    (∀ u, u ≠ uid → ((verify_code st now uid c ip cfg).2).attemptKey u = st.attemptKey u) ∧
    ((verify_code st now uid c ip cfg).2).blockUserKey = st.blockUserKey ∧
    ((verify_code st now uid c ip cfg).2).blockIpKey = st.blockIpKey ∧
    (verify_code ((verify_code st now uid c ip cfg).2) now2 uid c ip cfg).1 = .codeExpired := by
  have hstep : verify_code st now uid c ip cfg =
      (.success,
        { st with
          attemptKey := fun u => if u = uid then none else st.attemptKey u
          codeKey := fun u => if u = uid then none else st.codeKey u }) := by
    simp [verify_code, hb, hc, hcode]
  rw [hstep]
  refine ⟨rfl, by simp, by simp, ?_, ?_, rfl, rfl, ?_⟩
  · intro u hu; simp [hu]
  · intro u hu; simp [hu]
  · have hb2a : _is_blocked
        { st with
          attemptKey := fun u => if u = uid then none else st.attemptKey u
          codeKey := fun u => if u = uid then none else st.codeKey u } now2 uid ip = false := hb2
    simp [verify_code, hb2a, liveVal]

def stFresh : Store :=
  { emptyStore with codeKey := fun u =>
      if u = 7 then some ({ code := "013579", last_sent := 0 }, 180) else none }

theorem verify_success_once_witness :
    _is_blocked stFresh 10 7 ("1.2.3.4") = false ∧
    (verify_code stFresh 10 7 ("013579") ("1.2.3.4") defaultSettings).1 =
      VerifyOutcome.success ∧
    ((verify_code stFresh 10 7 ("013579") ("1.2.3.4") defaultSettings).2).codeKey 7 = none ∧
    (verify_code ((verify_code stFresh 10 7 ("013579") ("1.2.3.4") defaultSettings).2)
        20 7 ("013579") ("1.2.3.4") defaultSettings).1 = VerifyOutcome.codeExpired :=
  have h := verify_success_once stFresh 10 20 7 ("013579") ("1.2.3.4") defaultSettings
    { code := "013579", last_sent := 0 } (by decide) (by decide) (by decide) (by decide)
  ⟨by decide, h.1, h.2.1, h.2.2.2.2.2.2.2⟩

/-- k+1 consecutive calls to _increase_block for the same user and IP, the
j-th at time t j. -/
def escalChain (uid : Nat) (ip : String) (t : Nat → Nat) : Nat → Store → Store
  | 0, st => _increase_block st (t 0) uid ip
  | k + 1, st => _increase_block (escalChain uid ip t k st) (t (k + 1)) uid ip

/-- One _increase_block call, characterised: with L the level read from the
user-keyed record (0 when absent or expired), both records are overwritten
with level min(L,3)+1 and expiry now + blockTimes[min(L,3)] minutes. -/
lemma increase_block_spec (st : Store) (now uid : Nat) (ip : String) (L : Nat)
    (h : (liveVal now (st.blockUserKey uid)).getD 0 = L) :
    (_increase_block st now uid ip).blockUserKey uid =
      some (min L 3 + 1, now + blockTimes.getD (min L 3) 0 * 60) ∧
    (_increase_block st now uid ip).blockIpKey ip =
      some (min L 3 + 1, now + blockTimes.getD (min L 3) 0 * 60) := by
  have hlen : blockTimes.length - 1 = 3 := rfl
  unfold _increase_block
  simp only [hlen, h]
  constructor <;> simp

lemma blockTimes_ge30 (k : Nat) : 30 ≤ blockTimes.getD (min k 3) 0 := by
  have h : min k 3 = 0 ∨ min k 3 = 1 ∨ min k 3 = 2 ∨ min k 3 = 3 := by omega
  rcases h with h | h | h | h <;> rw [h] <;> decide

/-- Claim C1: starting from no live user-keyed LockoutRecord, consecutive
escalations of the same user (the (k+1)-th placed while the record written
by the k-th is still live) store level min(k,3)+1 under both the user key
and the IP key, with expiry = call time + blockTimes[min(k,3)] minutes:
block durations run 30m, 60m, 480m, 1440m and stay at 1440m thereafter. -/
theorem escalation_sequence (st : Store) (uid : Nat) (ip : String) (t : Nat → Nat)
    (h0 : liveVal (t 0) (st.blockUserKey uid) = none)
    (hlive : ∀ k, t (k + 1) < t k + blockTimes.getD (min k 3) 0 * 60) :
    ∀ k, (escalChain uid ip t k st).blockUserKey uid =
        some (min k 3 + 1, t k + blockTimes.getD (min k 3) 0 * 60) ∧
      (escalChain uid ip t k st).blockIpKey ip =
        some (min k 3 + 1, t k + blockTimes.getD (min k 3) 0 * 60) := by
  intro k
  induction k with
  | zero =>
      have h : (liveVal (t 0) (st.blockUserKey uid)).getD 0 = 0 := by rw [h0]; rfl
      exact increase_block_spec st (t 0) uid ip 0 h
  | succ k ih =>
      have h : (liveVal (t (k + 1)) ((escalChain uid ip t k st).blockUserKey uid)).getD 0 =
          min k 3 + 1 := by
        rw [ih.1]
        simp only [liveVal]
        rw [if_pos (hlive k)]
        rfl
      have hs := increase_block_spec (escalChain uid ip t k st) (t (k + 1)) uid ip
        (min k 3 + 1) h
      have hmin : min (min k 3 + 1) 3 = min (k + 1) 3 := by omega
      rw [hmin] at hs
      exact hs

/-- Escalation times for the witness chain: 1000 s apart, well inside every
block duration. -/
def tEsc : Nat → Nat := fun k => 1000 * k

theorem escalation_sequence_witness :
    liveVal (tEsc 0) (emptyStore.blockUserKey 7) = none ∧
    (escalChain 7 ("9.9.9.9") tEsc 5 emptyStore).blockUserKey 7 =
      some (min 5 3 + 1, tEsc 5 + blockTimes.getD (min 5 3) 0 * 60) ∧
    (escalChain 7 ("9.9.9.9") tEsc 1 emptyStore).blockUserKey 7 =
      some (min 1 3 + 1, tEsc 1 + blockTimes.getD (min 1 3) 0 * 60) :=
  have hl : ∀ k, tEsc (k + 1) < tEsc k + blockTimes.getD (min k 3) 0 * 60 := fun k => by
    have h := blockTimes_ge30 k
    simp only [tEsc]
    omega
  ⟨by decide,
    (escalation_sequence emptyStore 7 ("9.9.9.9") tEsc (by decide) hl 5).1,
    (escalation_sequence emptyStore 7 ("9.9.9.9") tEsc (by decide) hl 1).1⟩

/-- k identical verify_code calls for the same user, code, IP and time,
each applied to the store the previous call returned. -/
def verifyIter (now uid : Nat) (code ip : String) (cfg : Settings) : Nat → Store → Store
  | 0, st => st
  | k + 1, st => (verify_code (verifyIter now uid code ip cfg k st) now uid code ip cfg).2

/-- A sequence of verify_code calls for one user and IP, given as
(time, submitted code) pairs; returns the outcomes and the final store. -/
def verifyCalls (uid : Nat) (ip : String) (cfg : Settings) :
    List (Nat × String) → Store → List VerifyOutcome × Store
  | [], st => ([], st)
  | c :: rest, st =>
      let r := verify_code st c.1 uid c.2 ip cfg
      let rs := verifyCalls uid ip cfg rest r.2
      (r.1 :: rs.1, rs.2)

/-- A live lockout on either key makes verify_code return LockedOut with
the store untouched. -/
lemma verify_blocked_eq (S : Store) (now uid : Nat) (code ip : String) (cfg : Settings)
    (h : _is_blocked S now uid ip = true) :
    verify_code S now uid code ip cfg = (.lockedOut, S) := by
  simp [verify_code, h]

/-- One wrong-code call whose incremented count stays below
TWO_FA_MAX_ATTEMPTS: the counter is bumped and no block is written. -/
lemma verify_wrong_below (S : Store) (now uid : Nat) (w ip : String) (cfg : Settings)
    (payload : ChallengeEntry)
    (hb : _is_blocked S now uid ip = false)
    (hc : liveVal now (S.codeKey uid) = some payload)
    (hw : payload.code ≠ w)
    (hlt : (liveCounter now (S.attemptKey uid)).getD 0 + 1 < cfg.TWO_FA_MAX_ATTEMPTS) :
    verify_code S now uid w ip cfg =
      (.invalidCode,
        { S with attemptKey := fun u =>
            if u = uid then some ((liveCounter now (S.attemptKey uid)).getD 0 + 1,
              some (now + cfg.TWO_FA_CODE_TTL_SECONDS))
            else S.attemptKey u }) := by
  simp [verify_code, hb, hc, hw, Nat.not_le.mpr hlt]

/-- One wrong-code call whose incremented count reaches
TWO_FA_MAX_ATTEMPTS: the counter is bumped and the block is escalated. -/
lemma verify_wrong_reach (S : Store) (now uid : Nat) (w ip : String) (cfg : Settings)
    (payload : ChallengeEntry)
    (hb : _is_blocked S now uid ip = false)
    (hc : liveVal now (S.codeKey uid) = some payload)
    (hw : payload.code ≠ w)
    (hge : cfg.TWO_FA_MAX_ATTEMPTS ≤ (liveCounter now (S.attemptKey uid)).getD 0 + 1) :
    verify_code S now uid w ip cfg =
      (.invalidCode,
        _increase_block
          { S with attemptKey := fun u =>
              if u = uid then some ((liveCounter now (S.attemptKey uid)).getD 0 + 1,
                some (now + cfg.TWO_FA_CODE_TTL_SECONDS))
              else S.attemptKey u } now uid ip) := by
  simp [verify_code, hb, hc, hw, hge]

/-- State after k ≤ m wrong-code calls (with MAX = m+1): the challenge and
both lockout maps are untouched and the live attempt counter reads k. -/
lemma wrong_iter_inv (st : Store) (now uid : Nat) (w ip : String) (cfg : Settings)
    (payload : ChallengeEntry) (m : Nat)
    (hM : cfg.TWO_FA_MAX_ATTEMPTS = m + 1)
    (hb : _is_blocked st now uid ip = false)
    (hc : liveVal now (st.codeKey uid) = some payload)
    (ha : liveCounter now (st.attemptKey uid) = none)
    (hw : payload.code ≠ w)
    (hTTL : 0 < cfg.TWO_FA_CODE_TTL_SECONDS) :
    ∀ k, k ≤ m →
      (verifyIter now uid w ip cfg k st).codeKey = st.codeKey ∧
      (verifyIter now uid w ip cfg k st).blockUserKey = st.blockUserKey ∧
      (verifyIter now uid w ip cfg k st).blockIpKey = st.blockIpKey ∧
      liveCounter now ((verifyIter now uid w ip cfg k st).attemptKey uid) =
        (if k = 0 then none else some k) := by
  intro k
  induction k with
  | zero => intro _; exact ⟨rfl, rfl, rfl, by simpa using ha⟩
  | succ k ih =>
      intro hk
      obtain ⟨h1, h2, h3, h4⟩ := ih (Nat.le_of_succ_le hk)
      have hbk : _is_blocked (verifyIter now uid w ip cfg k st) now uid ip = false := by
        unfold _is_blocked
        rw [h2, h3]
        exact hb
      have hck : liveVal now ((verifyIter now uid w ip cfg k st).codeKey uid) = some payload := by
        rw [h1]; exact hc
      have hcount : (liveCounter now ((verifyIter now uid w ip cfg k st).attemptKey uid)).getD 0
          + 1 = k + 1 := by
        rw [h4]
        cases k <;> simp
      have hlt : (liveCounter now ((verifyIter now uid w ip cfg k st).attemptKey uid)).getD 0
          + 1 < cfg.TWO_FA_MAX_ATTEMPTS := by
        rw [hcount, hM]
        omega
      have hstep := verify_wrong_below (verifyIter now uid w ip cfg k st) now uid w ip cfg
        payload hbk hck hw hlt
      have hV : verifyIter now uid w ip cfg (k + 1) st =
          (verify_code (verifyIter now uid w ip cfg k st) now uid w ip cfg).2 := rfl
      rw [hV, hstep]
      refine ⟨h1, h2, h3, ?_⟩
      rw [h4]
      have hval : ((if k = 0 then none else some k : Option Nat)).getD 0 + 1 = k + 1 := by
        cases k <;> simp
      rw [hval]
      simp [liveCounter, Nat.lt_add_of_pos_right hTTL]

/-- When every call in a sequence happens while the user or IP is locked
out, every outcome is LockedOut and the store never changes. -/
lemma verifyCalls_all_locked (S : Store) (uid : Nat) (ip : String) (cfg : Settings) :
    ∀ calls : List (Nat × String), (∀ c ∈ calls, _is_blocked S c.1 uid ip = true) →
      (verifyCalls uid ip cfg calls S).1 = calls.map (fun _ => VerifyOutcome.lockedOut) ∧
      (verifyCalls uid ip cfg calls S).2 = S := by
  intro calls
  induction calls with
  | nil => intro _; exact ⟨rfl, rfl⟩
  | cons c rest ih =>
      intro h
      have hc := h c (List.mem_cons_self c rest)
      have hstep := verify_blocked_eq S c.1 uid c.2 ip cfg hc
      obtain ⟨ih1, ih2⟩ := ih (fun d hd => h d (List.mem_cons_of_mem c hd))
      simp [verifyCalls, hstep, ih1, ih2]

/-- Escalating with no live user-keyed record writes level 1 with a
30-minute (1800 s) TTL on both keys. -/
lemma increase_block_from_none (S : Store) (now uid : Nat) (ip : String)
    (h : liveVal now (S.blockUserKey uid) = none) :
    (_increase_block S now uid ip).blockUserKey uid = some (1, now + 1800) ∧
    (_increase_block S now uid ip).blockIpKey ip = some (1, now + 1800) := by
  have hL : (liveVal now (S.blockUserKey uid)).getD 0 = 0 := by rw [h]; rfl
  have hs := increase_block_spec S now uid ip 0 hL
  norm_num [blockTimes] at hs
  exact hs

/-- Claim C2: with a live challenge, no live lockout and no prior failed
attempts, after exactly TWO_FA_MAX_ATTEMPTS = m+1 wrong-code calls the
user-keyed LockoutRecord is live until now + 1800 s, and every subsequent
verify_code call before that expiry — whatever code it submits, the
correct one included — returns LockedOut. -/
theorem lockout_after_max_attempts (st : Store) (now uid : Nat) (w ip : String)
    (cfg : Settings) (payload : ChallengeEntry) (m : Nat)
    (hM : cfg.TWO_FA_MAX_ATTEMPTS = m + 1)
    (hb : _is_blocked st now uid ip = false)
    (hc : liveVal now (st.codeKey uid) = some payload)
    (ha : liveCounter now (st.attemptKey uid) = none)
    (hw : payload.code ≠ w)
    (hTTL : 0 < cfg.TWO_FA_CODE_TTL_SECONDS) :
    (verifyIter now uid w ip cfg (m + 1) st).blockUserKey uid = some (1, now + 1800) ∧
    ∀ calls : List (Nat × String), (∀ c ∈ calls, c.1 < now + 1800) →
      (verifyCalls uid ip cfg calls (verifyIter now uid w ip cfg (m + 1) st)).1 =
        calls.map (fun _ => VerifyOutcome.lockedOut) := by
  obtain ⟨h1, h2, h3, h4⟩ :=
    wrong_iter_inv st now uid w ip cfg payload m hM hb hc ha hw hTTL m le_rfl
  have hbk : _is_blocked (verifyIter now uid w ip cfg m st) now uid ip = false := by
    unfold _is_blocked
    rw [h2, h3]
    exact hb
  have hck : liveVal now ((verifyIter now uid w ip cfg m st).codeKey uid) = some payload := by
    rw [h1]; exact hc
  have hcount : (liveCounter now ((verifyIter now uid w ip cfg m st).attemptKey uid)).getD 0
      + 1 = m + 1 := by
    rw [h4]
    cases m <;> simp
  have hge : cfg.TWO_FA_MAX_ATTEMPTS ≤
      (liveCounter now ((verifyIter now uid w ip cfg m st).attemptKey uid)).getD 0 + 1 := by
    rw [hcount, hM]
  have hstep := verify_wrong_reach (verifyIter now uid w ip cfg m st) now uid w ip cfg
    payload hbk hck hw hge
  have hV : verifyIter now uid w ip cfg (m + 1) st =
      (verify_code (verifyIter now uid w ip cfg m st) now uid w ip cfg).2 := rfl
  have hbnone : liveVal now (st.blockUserKey uid) = none := by
    unfold _is_blocked at hb
    rcases hx : liveVal now (st.blockUserKey uid) with _ | v
    · rfl
    · rw [hx] at hb
      simp at hb
  have hblk : (verifyIter now uid w ip cfg (m + 1) st).blockUserKey uid =
      some (1, now + 1800) := by
    rw [hV, hstep]
    refine (increase_block_from_none _ now uid ip ?_).1
    show liveVal now ((verifyIter now uid w ip cfg m st).blockUserKey uid) = none
    rw [h2]
    exact hbnone
  refine ⟨hblk, fun calls hcl => ?_⟩
  have hblocked : ∀ c ∈ calls,
      _is_blocked (verifyIter now uid w ip cfg (m + 1) st) c.1 uid ip = true := by
    intro c hcm
    unfold _is_blocked
    rw [hblk]
    simp [liveVal, hcl c hcm]
  exact (verifyCalls_all_locked _ uid ip cfg calls hblocked).1

theorem lockout_after_max_attempts_witness :
    defaultSettings.TWO_FA_MAX_ATTEMPTS = 4 + 1 ∧
    (verifyIter 10 7 ("000000") ("1.2.3.4") defaultSettings 5 stFresh).blockUserKey 7 =
      some (1, 10 + 1800) ∧
    (verifyCalls 7 ("1.2.3.4") defaultSettings [(100, "000000"), (200, "013579")]
        (verifyIter 10 7 ("000000") ("1.2.3.4") defaultSettings 5 stFresh)).1 =
      [(100, "000000"), (200, "013579")].map (fun _ => VerifyOutcome.lockedOut) :=
  have h := lockout_after_max_attempts stFresh 10 7 ("000000") ("1.2.3.4") defaultSettings
    { code := "013579", last_sent := 0 } 4 (by decide) (by decide) (by decide) (by decide)
    (by decide) (by decide)
  ⟨by decide, h.1, h.2 [(100, "000000"), (200, "013579")] (by decide)⟩

/-- Stores reachable from the empty store through the operations of the
service: issuance, verification, and direct escalation. -/
inductive Reachable : Store → Prop
  | init : Reachable emptyStore
  | issue (st : Store) (now uid : Nat) (code : String) (deliveryOk : Bool) (cfg : Settings) :
      Reachable st → Reachable (send_2fa_code_via_email st now uid code deliveryOk cfg).store
  | verify (st : Store) (now uid : Nat) (code ip : String) (cfg : Settings) :
      Reachable st → Reachable (verify_code st now uid code ip cfg).2
  | escalate (st : Store) (now uid : Nat) (ip : String) :
      Reachable st → Reachable (_increase_block st now uid ip)

/-- Every stored LockoutRecord, user-keyed or IP-keyed, holds a level
between 1 and 4. -/
def BlockLevelsOK (st : Store) : Prop :=
  (∀ u v e, st.blockUserKey u = some (v, e) → 1 ≤ v ∧ v ≤ 4) ∧
  (∀ i v e, st.blockIpKey i = some (v, e) → 1 ≤ v ∧ v ≤ 4)

/-- _increase_block writes min(priorLevel, 3) + 1, which lies in [1, 4]
whatever the prior level was, and touches no other record. -/
lemma blockLevels_increase_block (st : Store) (now uid : Nat) (ip : String)
    (h : BlockLevelsOK st) : BlockLevelsOK (_increase_block st now uid ip) := by
  obtain ⟨hu, hi⟩ := h
  constructor
  · intro u v e hv
    simp only [_increase_block, blockTimes] at hv
    by_cases hcase : u = uid
    · simp [hcase] at hv
      omega
    · rw [if_neg hcase] at hv
      exact hu u v e hv
  · intro i v e hv
    simp only [_increase_block, blockTimes] at hv
    by_cases hcase : i = ip
    · simp [hcase] at hv
      omega
    · rw [if_neg hcase] at hv
      exact hi i v e hv

/-- Issuance never writes a LockoutRecord. -/
lemma blockLevels_issue (st : Store) (now uid : Nat) (code : String) (deliveryOk : Bool)
    (cfg : Settings) (h : BlockLevelsOK st) :
    BlockLevelsOK (send_2fa_code_via_email st now uid code deliveryOk cfg).store := by
  unfold send_2fa_code_via_email storeAndSend
  cases liveVal now (st.codeKey uid) with
  | none => cases deliveryOk <;> exact h
  | some p =>
      by_cases hcool : now - p.last_sent < cfg.TWO_FA_RESEND_SECONDS
      · simp only [if_pos hcool]
        exact h
      · simp only [if_neg hcool]
        cases deliveryOk <;> exact h

/-- Verification writes LockoutRecords only through _increase_block, so
the level bound is preserved. -/
lemma blockLevels_verify (st : Store) (now uid : Nat) (code ip : String) (cfg : Settings)
    (h : BlockLevelsOK st) : BlockLevelsOK (verify_code st now uid code ip cfg).2 := by
  unfold verify_code
  by_cases hb : _is_blocked st now uid ip
  · simp only [hb, if_true]
    exact h
  · simp only [hb, if_false, Bool.false_eq_true]
    cases liveVal now (st.codeKey uid) with
    | none => exact h
    | some p =>
        by_cases hw : p.code ≠ code
        · simp only [if_pos hw]
          by_cases hmax : cfg.TWO_FA_MAX_ATTEMPTS ≤ (liveCounter now (st.attemptKey uid)).getD 0 + 1
          · simp only [if_pos hmax]
            exact blockLevels_increase_block _ now uid ip h
          · simp only [if_neg hmax]
            exact h
        · simp only [if_neg hw]
          exact h

/-- The level bound holds in every reachable store. -/
lemma reachable_blockLevels (st : Store) (h : Reachable st) : BlockLevelsOK st := by
  induction h with
  | init =>
      constructor <;> intro x v e hv <;> simp [emptyStore] at hv
  | issue st now uid code deliveryOk cfg _ ih => exact blockLevels_issue st now uid code deliveryOk cfg ih
  | verify st now uid code ip cfg _ ih => exact blockLevels_verify st now uid code ip cfg ih
  | escalate st now uid ip _ ih => exact blockLevels_increase_block st now uid ip ih

/-- Claim C10: in every store reachable by issuance, verification and
escalation from the empty store, every LockoutRecord present — user-keyed
or IP-keyed — holds a level between 1 and 4 inclusive (the write stores
min(priorLevel, 3) + 1), so the stored level never exceeds the length of
the duration table. -/
theorem block_levels_bounded (st : Store) (h : Reachable st) :
    (∀ u v e, st.blockUserKey u = some (v, e) → 1 ≤ v ∧ v ≤ 4) ∧
    (∀ i v e, st.blockIpKey i = some (v, e) → 1 ≤ v ∧ v ≤ 4) :=
  reachable_blockLevels st h

theorem block_levels_bounded_witness : 1 ≤ 1 ∧ 1 ≤ 4 :=
  (block_levels_bounded (_increase_block emptyStore 0 7 ("1.1.1.1"))
    (Reachable.escalate emptyStore 0 7 ("1.1.1.1") Reachable.init)).1 7 1 1800 (by decide)
